import Mathlib

/-!
Verification development for the OSCC control API (`api/include/oscc.h`).

The repository ships the public header only; the codec, module state
machine and report dispatcher it declares are specified in the design
document.  Definitions below that embed those missing parts are marked
`Modelled from the spec:`; definitions taken from the header carry the
header's names.
-/

namespace Oscc

/-- Magic value in commands and reports indicating that its source is
OSCC (`OSCC_MAGIC` in `oscc.h`, value `0x05CC`). -/
def OSCC_MAGIC : Nat := 0x05CC

/-- Result enumeration `oscc_error_t` from `oscc.h`:
`OSCC_OK`, `OSCC_ERROR`, `OSCC_WARNING`. -/
inductive oscc_error_t
  | OSCC_OK
  | OSCC_ERROR
  | OSCC_WARNING
deriving DecidableEq

/-- Modelled from the spec: the three actuation modules (glossary, §3);
the per-module CAN protocol headers are not among the sources. -/
inductive Module
  | brake
  | throttle
  | steering
deriving DecidableEq

/-- Modelled from the spec: the per-module state lattice
`Disabled / Enabled / Faulted` of §4.2 (the implementing translation
unit is not among the sources). -/
inductive ModuleState
  | disabled
  | enabled
  | faulted
deriving DecidableEq

/-- Modelled from the spec: the caller-visible error taxonomy of §7
(`ValidationError` covers out-of-domain values; `ModuleNotEnabled` the
gate check; `AlreadyFaulted` the enable-while-faulted failure). -/
inductive ApiError
  | moduleNotEnabled
  | validationError
  | alreadyFaulted
  | transportError
deriving DecidableEq

/-- Modelled from the spec: decode failures of §4.1
(bad length, bad magic, checksum mismatch, unknown frame id). -/
inductive DecodeError
  | badLength
  | badMagic
  | checksumMismatch
  | unknownFrameId
deriving DecidableEq

/-- Modelled from the spec: the five outbound command kinds of §6. -/
inductive CmdKind
  | brakePosition
  | brakePressure
  | throttlePosition
  | steeringAngle
  | steeringTorque
deriving DecidableEq

/-- Module targeted by a command kind. -/
def cmdModule : CmdKind → Module
  | .brakePosition => .brake
  | .brakePressure => .brake
  | .throttlePosition => .throttle
  | .steeringAngle => .steering
  | .steeringTorque => .steering

/-- Whether a command kind uses the signed steering domain `[-1,1]`
(brake and throttle use the unsigned domain `[0,1]`). -/
def cmdSigned : CmdKind → Bool
  | .brakePosition => false
  | .brakePressure => false
  | .throttlePosition => false
  | .steeringAngle => true
  | .steeringTorque => true

/-- Lower bound of a command kind's declared domain (`0` or `-1`). -/
def loBound (k : CmdKind) : ℚ := if cmdSigned k then -1 else 0

/-- Modelled from the spec: a command value is in its module's declared
domain, `[0,1]` for brake/throttle and `[-1,1]` for steering (§3, §6). -/
def inDomain (k : CmdKind) (v : ℚ) : Prop := loBound k ≤ v ∧ v ≤ 1

instance (k : CmdKind) (v : ℚ) : Decidable (inDomain k v) :=
  inferInstanceAs (Decidable (_ ∧ _))

/-- Modelled from the spec: fixed-point scale denominator per module
(§4.1: brake/throttle unsigned `0..max` onto `[0,1]`, steering signed
range onto `[-1,1]`).  The concrete scales are the 16-bit maxima. -/
def scaleMax (k : CmdKind) : ℤ := if cmdSigned k then 32767 else 65535

/-- One least-significant-unit of a command kind's fixed-point
resolution. -/
def lsu (k : CmdKind) : ℚ := 1 / ((scaleMax k : ℤ) : ℚ)

/-- Modelled from the spec: scale a normalized value into the module's
native integer range (§4.1). -/
def scaleValue (k : CmdKind) (v : ℚ) : ℤ := ⌊v * ((scaleMax k : ℤ) : ℚ)⌋

/-- Reduce a scaled integer to its 16-bit wire representation
(two's complement for negative values). -/
def rawOfScaled (i : ℤ) : Nat := (i % 65536).toNat

/-- Reinterpret a 16-bit wire field as a signed integer. -/
def signedOfRaw (raw : Nat) : ℤ :=
  if raw < 32768 then (raw : ℤ) else (raw : ℤ) - 65536

/-- Modelled from the spec: map a 16-bit wire field back to the
normalized domain (§4.1). -/
def unscale (signed : Bool) (raw : Nat) : ℚ :=
  if signed then ((signedOfRaw raw : ℤ) : ℚ) / 32767
  else ((raw : Nat) : ℚ) / 65535

/-- Modelled from the spec: one CAN frame identifier per command and
report kind (§6); concrete values chosen for the model. -/
def OSCC_BRAKE_POSITION_COMMAND_CAN_ID : Nat := 0x070

/-- Modelled from the spec: brake pressure command frame identifier. -/
def OSCC_BRAKE_PRESSURE_COMMAND_CAN_ID : Nat := 0x071

/-- Modelled from the spec: brake report frame identifier. -/
def OSCC_BRAKE_REPORT_CAN_ID : Nat := 0x073

/-- Modelled from the spec: throttle command frame identifier. -/
def OSCC_THROTTLE_COMMAND_CAN_ID : Nat := 0x090

/-- Modelled from the spec: throttle report frame identifier. -/
def OSCC_THROTTLE_REPORT_CAN_ID : Nat := 0x093

/-- Modelled from the spec: steering angle command frame identifier. -/
def OSCC_STEERING_ANGLE_COMMAND_CAN_ID : Nat := 0x0B0

/-- Modelled from the spec: steering torque command frame identifier. -/
def OSCC_STEERING_TORQUE_COMMAND_CAN_ID : Nat := 0x0B1

/-- Modelled from the spec: steering report frame identifier. -/
def OSCC_STEERING_REPORT_CAN_ID : Nat := 0x0B3

/-- Modelled from the spec: fault report frame identifier (one kind,
module of origin carried in the payload). -/
def OSCC_FAULT_REPORT_CAN_ID : Nat := 0x0A0

/-- Wire frame id of a command kind. -/
def cmdFrameId : CmdKind → Nat
  | .brakePosition => OSCC_BRAKE_POSITION_COMMAND_CAN_ID
  | .brakePressure => OSCC_BRAKE_PRESSURE_COMMAND_CAN_ID
  | .throttlePosition => OSCC_THROTTLE_COMMAND_CAN_ID
  | .steeringAngle => OSCC_STEERING_ANGLE_COMMAND_CAN_ID
  | .steeringTorque => OSCC_STEERING_TORQUE_COMMAND_CAN_ID

/-- Modelled from the spec: a fixed-length CAN frame, an identifier plus
an 8-byte data buffer (§6 wire format). -/
structure CanFrame where
  id : Nat
  data : List Nat
deriving DecidableEq

/-- Byte `i` of a frame's data buffer (`0` past the end). -/
def byteAt (f : CanFrame) (i : Nat) : Nat := f.data.getD i 0

/-- Modelled from the spec: trailing checksum byte over the seven
payload bytes (§6 "trailing checksum byte(s)"; §9 leaves the concrete
algorithm open, the model uses the additive sum modulo 256). -/
def checksumByte (f : CanFrame) : Nat :=
  (byteAt f 0 + byteAt f 1 + byteAt f 2 + byteAt f 3 +
   byteAt f 4 + byteAt f 5 + byteAt f 6) % 256

/-- Modelled from the spec: decoded inbound reports (§3): the three
module telemetry reports with their normalized value, and the fault
report naming the module of origin. -/
inductive Report
  | brakeReport (value : ℚ)
  | throttleReport (value : ℚ)
  | steeringReport (value : ℚ)
  | faultReport (m : Module)
deriving DecidableEq

/-- Normalized value carried by a telemetry report (`0` for faults). -/
def reportValue : Report → ℚ
  | .brakeReport v => v
  | .throttleReport v => v
  | .steeringReport v => v
  | .faultReport _ => 0

/-- Payload interpretation selected by a frame identifier. -/
inductive WireKind
  | brakeValue
  | throttleValue
  | steeringValue
  | faultOrigin
deriving DecidableEq

/-- Map a frame identifier to its payload interpretation, `none` for
identifiers unknown to the protocol. -/
def idKind (id : Nat) : Option WireKind :=
  if id = OSCC_BRAKE_POSITION_COMMAND_CAN_ID then some .brakeValue
  else if id = OSCC_BRAKE_PRESSURE_COMMAND_CAN_ID then some .brakeValue
  else if id = OSCC_BRAKE_REPORT_CAN_ID then some .brakeValue
  else if id = OSCC_THROTTLE_COMMAND_CAN_ID then some .throttleValue
  else if id = OSCC_THROTTLE_REPORT_CAN_ID then some .throttleValue
  else if id = OSCC_STEERING_ANGLE_COMMAND_CAN_ID then some .steeringValue
  else if id = OSCC_STEERING_TORQUE_COMMAND_CAN_ID then some .steeringValue
  else if id = OSCC_STEERING_REPORT_CAN_ID then some .steeringValue
  else if id = OSCC_FAULT_REPORT_CAN_ID then some .faultOrigin
  else none

/-- Module of origin encoded in a fault report payload byte. -/
def faultOriginModule : Nat → Option Module
  | 0 => some .brake
  | 1 => some .throttle
  | 2 => some .steering
  | _ => none

/-- Build the wire frame for a 16-bit value field: magic tag little
endian in bytes 0-1, value in bytes 2-3, sequence counter in byte 4,
trailing checksum in byte 7. -/
def mkValueFrame (id raw seq : Nat) : CanFrame :=
  let pre : CanFrame :=
    { id := id, data := [0xCC, 0x05, raw % 256, raw / 256, seq % 256, 0, 0] }
  { id := id, data := pre.data ++ [checksumByte pre] }

/-- Modelled from the spec: `encode(Command) -> FrameBytes` (§4.1) for
the command's wire identifier, magic tag, fixed-point scaled value,
sequence counter and checksum. -/
def encode (k : CmdKind) (v : ℚ) (seq : Nat) : CanFrame :=
  mkValueFrame (cmdFrameId k) (rawOfScaled (scaleValue k v)) seq

/-- Modelled from the spec: `decode(FrameBytes) -> Result<Report,
DecodeError>` (§4.1): validates frame length, magic tag (`BadMagic`),
checksum (`ChecksumMismatch`), then reconstructs a typed report;
unknown identifiers fail with `UnknownFrameId`. -/
def decode (f : CanFrame) : Except DecodeError Report :=
  if f.data.length ≠ 8 then .error .badLength
  else if byteAt f 0 + 256 * byteAt f 1 ≠ OSCC_MAGIC then .error .badMagic
  else if byteAt f 7 ≠ checksumByte f then .error .checksumMismatch
  else
    match idKind f.id with
    | none => .error .unknownFrameId
    | some .brakeValue =>
        .ok (.brakeReport (unscale false (byteAt f 2 + 256 * byteAt f 3)))
    | some .throttleValue =>
        .ok (.throttleReport (unscale false (byteAt f 2 + 256 * byteAt f 3)))
    | some .steeringValue =>
        .ok (.steeringReport (unscale true (byteAt f 2 + 256 * byteAt f 3)))
    | some .faultOrigin =>
        match faultOriginModule (byteAt f 2) with
        | none => .error .unknownFrameId
        | some m => .ok (.faultReport m)

/-- Report produced for a command kind's value field (used to state the
encode/decode round trip). -/
def valueReport (k : CmdKind) (x : ℚ) : Report :=
  match cmdModule k with
  | .brake => .brakeReport x
  | .throttle => .throttleReport x
  | .steering => .steeringReport x

/-- Modelled from the spec: `enable(module)` per-module transition
(§4.2): `Disabled → Enabled`, no-op when already `Enabled`, fails with
`AlreadyFaulted` from `Faulted`. -/
def enableModule : ModuleState → Except ApiError ModuleState
  | .disabled => .ok .enabled
  | .enabled => .ok .enabled
  | .faulted => .error .alreadyFaulted

/-- Modelled from the spec: `disable(module)` transitions any state back
to `Disabled` unconditionally and never fails (§4.2). -/
def disableModule : ModuleState → Except ApiError ModuleState :=
  fun _ => .ok .disabled

/-- The three events that can reach one module's state machine. -/
inductive ModuleEvent
  | evEnable
  | evDisable
  | evFault
deriving DecidableEq

/-- Modelled from the spec: one step of the per-module state machine
(§4.2); a failing enable leaves the state unchanged, a decoded fault
report forces `Faulted` from any state. -/
def moduleStep (st : ModuleState) : ModuleEvent → ModuleState
  | .evEnable =>
      match enableModule st with
      | .ok st2 => st2
      | .error _ => st
  | .evDisable => .disabled
  | .evFault => .faulted

/-- Modelled from the spec: the subscription registry, one ordered
callback sequence per report kind (§3, §4.3); callbacks are opaque
handles. -/
structure SubscriptionRegistry where
  brakeSubs : List Nat
  throttleSubs : List Nat
  steeringSubs : List Nat
  faultSubs : List Nat
  obdSubs : List Nat
deriving DecidableEq

/-- Modelled from the spec: the session/context state of §9 — open flag,
per-module states, registry, frames handed to the transport, sequence
counter and dropped-frame counter (§4.4). -/
structure Session where
  isOpen : Bool
  brakeState : ModuleState
  throttleState : ModuleState
  steeringState : ModuleState
  registry : SubscriptionRegistry
  sentFrames : List CanFrame
  seq : Nat
  droppedFrames : Nat
deriving DecidableEq

/-- State of one module in a session. -/
def moduleStateOf (s : Session) : Module → ModuleState
  | .brake => s.brakeState
  | .throttle => s.throttleState
  | .steering => s.steeringState

/-- Replace one module's state in a session. -/
def setModuleState (s : Session) (m : Module) (st : ModuleState) : Session :=
  match m with
  | .brake => { s with brakeState := st }
  | .throttle => { s with throttleState := st }
  | .steering => { s with steeringState := st }

/-- Modelled from the spec: the publish path (§6, §4.4): validate the
domain (`ValidationError`, never clamped), then the gate check
(`ModuleNotEnabled` unless the target module is `Enabled`), then encode
and forward one frame to the transport. -/
def publish (s : Session) (k : CmdKind) (v : ℚ) :
    Except ApiError Unit × Session :=
  if ¬ inDomain k v then (.error .validationError, s)
  else if moduleStateOf s (cmdModule k) ≠ .enabled then
    (.error .moduleNotEnabled, s)
  else
    (.ok (),
     { s with sentFrames := s.sentFrames ++ [encode k v s.seq],
              seq := s.seq + 1 })

/-- Observable events of the receive path: the fault state transition
and each subscriber callback invocation, in order. -/
inductive Event
  | faultTransition (m : Module)
  | invoke (cb : Nat) (r : Report)
deriving DecidableEq

/-- Callback sequence registered for a report's kind. -/
def subsFor (reg : SubscriptionRegistry) : Report → List Nat
  | .brakeReport _ => reg.brakeSubs
  | .throttleReport _ => reg.throttleSubs
  | .steeringReport _ => reg.steeringSubs
  | .faultReport _ => reg.faultSubs

/-- Modelled from the spec: the receive-loop body (§4.3, §4.4): decode
the frame; on failure count and drop it with no dispatch; on a fault
report apply the fault transition first, then invoke every fault
subscriber in registration order; on a telemetry report invoke that
kind's subscribers in registration order. -/
def processFrame (s : Session) (f : CanFrame) : Session × List Event :=
  match decode f with
  | .error _ => ({ s with droppedFrames := s.droppedFrames + 1 }, [])
  | .ok r =>
    match r with
    | .faultReport m =>
        (setModuleState s m .faulted,
         Event.faultTransition m ::
           s.registry.faultSubs.map (fun cb => Event.invoke cb r))
    | _ => (s, (subsFor s.registry r).map (fun cb => Event.invoke cb r))

/-- Map the rich result onto the header's `oscc_error_t`; the header
documents every operation as returning `OSCC_ERROR` or `OSCC_OK`. -/
def toErrorCode : Except ApiError Unit → oscc_error_t
  | .ok _ => .OSCC_OK
  | .error _ => .OSCC_ERROR

/-- Fresh session right after a successful open. -/
def initSession : Session :=
  { isOpen := true, brakeState := .disabled, throttleState := .disabled,
    steeringState := .disabled,
    registry := { brakeSubs := [], throttleSubs := [], steeringSubs := [],
                  faultSubs := [], obdSubs := [] },
    sentFrames := [], seq := 0, droppedFrames := 0 }

/-- Modelled from the spec: `oscc_open` (§6): acquires the transport and
starts the receive loop; fails if the channel is already open. -/
def oscc_open (s : Session) (channel : Nat) : oscc_error_t × Session :=
  if s.isOpen then (.OSCC_ERROR, s) else (.OSCC_OK, initSession)

/-- Modelled from the spec: `oscc_close` (§6): stops the receive loop,
releases the transport, resets all module states to `Disabled`. -/
def oscc_close (s : Session) (channel : Nat) : oscc_error_t × Session :=
  (.OSCC_OK,
   { s with isOpen := false, brakeState := .disabled,
            throttleState := .disabled, steeringState := .disabled })

/-- Modelled from the spec: `oscc_enable` applies the enable transition
to all modules collectively (§6, §4.2); it fails with the
`AlreadyFaulted` code when some module is `Faulted`. -/
def oscc_enable (s : Session) : oscc_error_t × Session :=
  if s.brakeState = .faulted ∨ s.throttleState = .faulted ∨
     s.steeringState = .faulted then (.OSCC_ERROR, s)
  else
    (.OSCC_OK,
     { s with brakeState := .enabled, throttleState := .enabled,
              steeringState := .enabled })

/-- Modelled from the spec: `oscc_disable` applies the unconditional
disable transition to all modules (§6, §4.2). -/
def oscc_disable (s : Session) : oscc_error_t × Session :=
  (.OSCC_OK,
   { s with brakeState := .disabled, throttleState := .disabled,
            steeringState := .disabled })

/-- `oscc_publish_brake_position` from the header, over the modelled
publish path. -/
def oscc_publish_brake_position (s : Session) (brake_position : ℚ) :
    oscc_error_t × Session :=
  let r := publish s .brakePosition brake_position
  (toErrorCode r.1, r.2)

/-- `oscc_publish_brake_pressure` from the header. -/
def oscc_publish_brake_pressure (s : Session) (brake_pressure : ℚ) :
    oscc_error_t × Session :=
  let r := publish s .brakePressure brake_pressure
  (toErrorCode r.1, r.2)

/-- `oscc_publish_throttle_position` from the header. -/
def oscc_publish_throttle_position (s : Session) (throttle_position : ℚ) :
    oscc_error_t × Session :=
  let r := publish s .throttlePosition throttle_position
  (toErrorCode r.1, r.2)

/-- `oscc_publish_steering_angle` from the header. -/
def oscc_publish_steering_angle (s : Session) (angle : ℚ) :
    oscc_error_t × Session :=
  let r := publish s .steeringAngle angle
  (toErrorCode r.1, r.2)

/-- `oscc_publish_steering_torque` from the header. -/
def oscc_publish_steering_torque (s : Session) (torque : ℚ) :
    oscc_error_t × Session :=
  let r := publish s .steeringTorque torque
  (toErrorCode r.1, r.2)

/-- `oscc_subscribe_to_brake_reports` from the header: appends the
callback to the brake sequence (§4.3). -/
def oscc_subscribe_to_brake_reports (s : Session) (callback : Nat) :
    oscc_error_t × Session :=
  (.OSCC_OK,
   { s with registry :=
       { s.registry with brakeSubs := s.registry.brakeSubs ++ [callback] } })

/-- `oscc_subscribe_to_throttle_reports` from the header. -/
def oscc_subscribe_to_throttle_reports (s : Session) (callback : Nat) :
    oscc_error_t × Session :=
  (.OSCC_OK,
   { s with registry :=
       { s.registry with
           throttleSubs := s.registry.throttleSubs ++ [callback] } })

/-- `oscc_subscribe_to_steering_reports` from the header. -/
def oscc_subscribe_to_steering_reports (s : Session) (callback : Nat) :
    oscc_error_t × Session :=
  (.OSCC_OK,
   { s with registry :=
       { s.registry with
           steeringSubs := s.registry.steeringSubs ++ [callback] } })

/-- `oscc_subscribe_to_fault_reports` from the header. -/
def oscc_subscribe_to_fault_reports (s : Session) (callback : Nat) :
    oscc_error_t × Session :=
  (.OSCC_OK,
   { s with registry :=
       { s.registry with faultSubs := s.registry.faultSubs ++ [callback] } })

/-- `oscc_subscribe_to_obd_messages` from the header. -/
def oscc_subscribe_to_obd_messages (s : Session) (callback : Nat) :
    oscc_error_t × Session :=
  (.OSCC_OK,
   { s with registry :=
       { s.registry with obdSubs := s.registry.obdSubs ++ [callback] } })

/-- Frame obtained from `f` by overwriting data byte `i` with `c`. -/
def setByte (f : CanFrame) (i c : Nat) : CanFrame :=
  { f with data := f.data.set i c }

instance {ε α : Type} [DecidableEq ε] [DecidableEq α] :
    DecidableEq (Except ε α) := fun a b =>
  match a, b with
  | .ok x, .ok y =>
      if h : x = y then .isTrue (by rw [h]) else .isFalse (by simp [h])
  | .error x, .error y =>
      if h : x = y then .isTrue (by rw [h]) else .isFalse (by simp [h])
  | .ok _, .error _ => .isFalse (by simp)
  | .error _, .ok _ => .isFalse (by simp)

lemma rawOfScaled_lt (i : ℤ) : rawOfScaled i < 65536 := by
  unfold rawOfScaled; omega

lemma rawOfScaled_nonneg_eq (i : ℤ) (h0 : 0 ≤ i) (h1 : i < 65536) :
    ((rawOfScaled i : Nat) : ℤ) = i := by
  unfold rawOfScaled; omega

lemma signedOfRaw_rawOfScaled (i : ℤ) (h0 : -32768 ≤ i) (h1 : i < 32768) :
    signedOfRaw (rawOfScaled i) = i := by
  unfold signedOfRaw rawOfScaled
  split_ifs with h <;> omega

/-- Decoding a well-formed value frame passes the length, magic and
checksum checks and recovers the 16-bit value field exactly. -/
lemma decode_mkValueFrame (id raw seq : Nat) :
    decode (mkValueFrame id raw seq) =
      match idKind id with
      | none => .error .unknownFrameId
      | some .brakeValue => .ok (.brakeReport (unscale false raw))
      | some .throttleValue => .ok (.throttleReport (unscale false raw))
      | some .steeringValue => .ok (.steeringReport (unscale true raw))
      | some .faultOrigin =>
          match faultOriginModule (raw % 256) with
          | none => .error .unknownFrameId
          | some m => .ok (.faultReport m) := by
  have hsplit : raw % 256 + 256 * (raw / 256) = raw := Nat.mod_add_div raw 256
  unfold decode mkValueFrame
  simp only [byteAt, checksumByte, List.cons_append, List.nil_append,
    List.getD_cons_zero, List.getD_cons_succ, List.length_cons,
    List.length_nil, OSCC_MAGIC]
  norm_num
  rw [hsplit]

/-- Decoding an encoded command recovers the unscaled value field. -/
lemma decode_encode (k : CmdKind) (v : ℚ) (seq : Nat) :
    decode (encode k v seq) =
      .ok (valueReport k
        (unscale (cmdSigned k) (rawOfScaled (scaleValue k v)))) := by
  cases k <;> rw [encode, decode_mkValueFrame] <;> rfl

/-- Floor-based fixed-point scaling loses at most one unit of the
scaled resolution. -/
lemma floor_scale_err (x M : ℚ) (hM : 0 < M) :
    |((⌊x * M⌋ : ℤ) : ℚ) / M - x| ≤ 1 / M := by
  have h1 : ((⌊x * M⌋ : ℤ) : ℚ) ≤ x * M := Int.floor_le _
  have h2 : x * M - 1 < ((⌊x * M⌋ : ℤ) : ℚ) := Int.sub_one_lt_floor _
  have key : ((⌊x * M⌋ : ℤ) : ℚ) / M - x =
      (((⌊x * M⌋ : ℤ) : ℚ) - x * M) / M := by
    field_simp
    ring
  rw [key, abs_div, abs_of_pos hM]
  have hnum : |((⌊x * M⌋ : ℤ) : ℚ) - x * M| ≤ 1 := by
    rw [abs_le]
    constructor <;> linarith
  exact div_le_div_of_nonneg_right hnum hM.le

lemma unscale_err_unsigned (v : ℚ) (h0 : 0 ≤ v) (h1 : v ≤ 1) :
    |unscale false (rawOfScaled ⌊v * (65535 : ℚ)⌋) - v| ≤ 1 / 65535 := by
  have hge : (0 : ℚ) ≤ v * 65535 := by nlinarith
  have hle : v * 65535 ≤ 65535 := by nlinarith
  have hi0 : 0 ≤ ⌊v * (65535 : ℚ)⌋ := Int.le_floor.mpr (by exact_mod_cast hge)
  have hfl : (⌊v * (65535 : ℚ)⌋ : ℚ) ≤ 65535 := le_trans (Int.floor_le _) hle
  have hi1 : ⌊v * (65535 : ℚ)⌋ < 65536 := by
    have h : (⌊v * (65535 : ℚ)⌋ : ℤ) ≤ 65535 := by exact_mod_cast hfl
    omega
  have hcast : ((rawOfScaled ⌊v * (65535 : ℚ)⌋ : Nat) : ℚ) =
      ((⌊v * (65535 : ℚ)⌋ : ℤ) : ℚ) := by
    exact_mod_cast congrArg (fun z : ℤ => (z : ℚ))
      (rawOfScaled_nonneg_eq ⌊v * (65535 : ℚ)⌋ hi0 hi1)
  simp only [unscale, if_false, Bool.false_eq_true]
  rw [hcast]
  exact floor_scale_err v 65535 (by norm_num)

lemma unscale_err_signed (v : ℚ) (h0 : -1 ≤ v) (h1 : v ≤ 1) :
    |unscale true (rawOfScaled ⌊v * (32767 : ℚ)⌋) - v| ≤ 1 / 32767 := by
  have hge : (-32767 : ℚ) ≤ v * 32767 := by nlinarith
  have hle : v * 32767 ≤ 32767 := by nlinarith
  have hi0 : -32768 ≤ ⌊v * (32767 : ℚ)⌋ := by
    have h : (-32767 : ℤ) ≤ ⌊v * (32767 : ℚ)⌋ :=
      Int.le_floor.mpr (by exact_mod_cast hge)
    omega
  have hfl : (⌊v * (32767 : ℚ)⌋ : ℚ) ≤ 32767 := le_trans (Int.floor_le _) hle
  have hi1 : ⌊v * (32767 : ℚ)⌋ < 32768 := by
    have h : (⌊v * (32767 : ℚ)⌋ : ℤ) ≤ 32767 := by exact_mod_cast hfl
    omega
  have hsr : signedOfRaw (rawOfScaled ⌊v * (32767 : ℚ)⌋) = ⌊v * (32767 : ℚ)⌋ :=
    signedOfRaw_rawOfScaled _ hi0 hi1
  simp only [unscale, if_true]
  rw [hsr]
  exact floor_scale_err v 32767 (by norm_num)

/-- Every rich API result maps onto `OSCC_OK` or `OSCC_ERROR`. -/
lemma toErrorCode_ok_or_error (e : Except ApiError Unit) :
    toErrorCode e = .OSCC_OK ∨ toErrorCode e = .OSCC_ERROR := by
  cases e
  · right; rfl
  · left; rfl

/-- C2: for every command kind and every normalized value in its
declared domain, encoding the command and decoding the resulting frame
yields a report whose value differs from the original by at most one
least-significant-unit of the kind's fixed-point resolution. -/
theorem encode_decode_roundtrip (k : CmdKind) (v : ℚ) (seq : Nat)
    (h : inDomain k v) :
    ∃ r, decode (encode k v seq) = .ok r ∧
      |reportValue r - v| ≤ lsu k := by
  obtain ⟨h0, h1⟩ := h
  refine ⟨_, decode_encode k v seq, ?_⟩
  cases k
  case brakePosition =>
    have h0u : (0 : ℚ) ≤ v := by simpa [loBound, cmdSigned] using h0
    simpa [valueReport, cmdModule, reportValue, cmdSigned, scaleValue,
      scaleMax, lsu] using unscale_err_unsigned v h0u h1
  case brakePressure =>
    have h0u : (0 : ℚ) ≤ v := by simpa [loBound, cmdSigned] using h0
    simpa [valueReport, cmdModule, reportValue, cmdSigned, scaleValue,
      scaleMax, lsu] using unscale_err_unsigned v h0u h1
  case throttlePosition =>
    have h0u : (0 : ℚ) ≤ v := by simpa [loBound, cmdSigned] using h0
    simpa [valueReport, cmdModule, reportValue, cmdSigned, scaleValue,
      scaleMax, lsu] using unscale_err_unsigned v h0u h1
  case steeringAngle =>
    have h0s : (-1 : ℚ) ≤ v := by simpa [loBound, cmdSigned] using h0
    simpa [valueReport, cmdModule, reportValue, cmdSigned, scaleValue,
      scaleMax, lsu] using unscale_err_signed v h0s h1
  case steeringTorque =>
    have h0s : (-1 : ℚ) ≤ v := by simpa [loBound, cmdSigned] using h0
    simpa [valueReport, cmdModule, reportValue, cmdSigned, scaleValue,
      scaleMax, lsu] using unscale_err_signed v h0s h1

/-- Witness for C2: brake position `1/2` is in domain, and its encoded
frame decodes back to within one least-significant-unit of `1/2`. -/
theorem encode_decode_roundtrip_witness :
    inDomain .brakePosition (1/2) ∧
    ∃ r, decode (encode .brakePosition (1/2) 0) = .ok r ∧
      |reportValue r - (1/2)| ≤ lsu .brakePosition :=
  ⟨by constructor <;> norm_num [loBound, cmdSigned],
   encode_decode_roundtrip .brakePosition (1/2) 0
     (by constructor <;> norm_num [loBound, cmdSigned])⟩

/-- C1: for every module and every publish operation, publishing an
in-domain command while the module's state is `Disabled` or `Faulted`
returns the `ModuleNotEnabled` error and causes zero transport sends. -/
theorem publish_while_not_enabled (s : Session) (k : CmdKind) (v : ℚ)
    (hdom : inDomain k v)
    (hst : moduleStateOf s (cmdModule k) = .disabled ∨
           moduleStateOf s (cmdModule k) = .faulted) :
    (publish s k v).1 = .error .moduleNotEnabled ∧
    (publish s k v).2.sentFrames = s.sentFrames := by
  have hne : moduleStateOf s (cmdModule k) ≠ .enabled := by
    rcases hst with h | h <;> simp [h]
  simp [publish, hdom, hne]

/-- Witness for C1: publishing brake position `1/2` on a fresh (all
modules disabled) session fails with `ModuleNotEnabled` and sends
nothing. -/
theorem publish_while_not_enabled_witness :
    (publish initSession .brakePosition (1/2)).1 =
      .error .moduleNotEnabled ∧
    (publish initSession .brakePosition (1/2)).2.sentFrames =
      initSession.sentFrames :=
  publish_while_not_enabled initSession .brakePosition (1/2)
    (by constructor <;> norm_num [loBound, cmdSigned]) (Or.inl rfl)

lemma byteAt_setByte_ne (f : CanFrame) (i j c : Nat) (h : i ≠ j) :
    byteAt (setByte f i c) j = byteAt f j := by
  simp [byteAt, setByte, List.getD_eq_getElem?_getD, List.getElem?_set_ne h]

lemma byteAt_setByte_self (f : CanFrame) (i c : Nat) (h : i < f.data.length) :
    byteAt (setByte f i c) i = c := by
  simp [byteAt, setByte, List.getD_eq_getElem?_getD,
    List.getElem?_set_eq_of_lt c h]

/-- C3: a frame is only decoded as a report when its magic tag equals
`OSCC_MAGIC` and its checksum validates; altering the checksum byte of
any frame that decoded successfully yields `ChecksumMismatch`, and the
altered frame is dropped without being dispatched to any subscriber. -/
theorem altered_checksum_never_dispatched (f : CanFrame) (r : Report)
    (c : Nat) (hok : decode f = .ok r) (hne : c ≠ byteAt f 7) :
    (byteAt f 0 + 256 * byteAt f 1 = OSCC_MAGIC ∧
     byteAt f 7 = checksumByte f) ∧
    decode (setByte f 7 c) = .error .checksumMismatch ∧
    ∀ s, (processFrame s (setByte f 7 c)).2 = [] := by
  have h1 : ¬ f.data.length ≠ 8 := by
    intro h
    unfold decode at hok
    rw [if_pos h] at hok
    exact Except.noConfusion hok
  have h2 : ¬ (byteAt f 0 + 256 * byteAt f 1 ≠ OSCC_MAGIC) := by
    intro h
    unfold decode at hok
    rw [if_neg h1, if_pos h] at hok
    exact Except.noConfusion hok
  have h3 : ¬ (byteAt f 7 ≠ checksumByte f) := by
    intro h
    unfold decode at hok
    rw [if_neg h1, if_neg h2, if_pos h] at hok
    exact Except.noConfusion hok
  have hlen : f.data.length = 8 := not_ne_iff.mp h1
  have hmag : byteAt f 0 + 256 * byteAt f 1 = OSCC_MAGIC := not_ne_iff.mp h2
  have hck : byteAt f 7 = checksumByte f := not_ne_iff.mp h3
  have hb0 : byteAt (setByte f 7 c) 0 = byteAt f 0 :=
    byteAt_setByte_ne f 7 0 c (by omega)
  have hb1 : byteAt (setByte f 7 c) 1 = byteAt f 1 :=
    byteAt_setByte_ne f 7 1 c (by omega)
  have hb2 : byteAt (setByte f 7 c) 2 = byteAt f 2 :=
    byteAt_setByte_ne f 7 2 c (by omega)
  have hb3 : byteAt (setByte f 7 c) 3 = byteAt f 3 :=
    byteAt_setByte_ne f 7 3 c (by omega)
  have hb4 : byteAt (setByte f 7 c) 4 = byteAt f 4 :=
    byteAt_setByte_ne f 7 4 c (by omega)
  have hb5 : byteAt (setByte f 7 c) 5 = byteAt f 5 :=
    byteAt_setByte_ne f 7 5 c (by omega)
  have hb6 : byteAt (setByte f 7 c) 6 = byteAt f 6 :=
    byteAt_setByte_ne f 7 6 c (by omega)
  have hb7 : byteAt (setByte f 7 c) 7 = c :=
    byteAt_setByte_self f 7 c (by omega)
  have hcs : checksumByte (setByte f 7 c) = checksumByte f := by
    unfold checksumByte
    rw [hb0, hb1, hb2, hb3, hb4, hb5, hb6]
  have hlen2 : (setByte f 7 c).data.length = 8 := by
    simp [setByte, hlen]
  have hdec : decode (setByte f 7 c) = .error .checksumMismatch := by
    unfold decode
    rw [if_neg (by simp [hlen2]), if_neg (by rw [hb0, hb1]; simp [hmag]),
        if_pos (by rw [hb7, hcs, ← hck]; exact hne)]
  refine ⟨⟨hmag, hck⟩, hdec, fun s => ?_⟩
  unfold processFrame
  rw [hdec]

/-- Witness for C3: a valid brake report frame whose checksum byte is
overwritten with `0` decodes to `ChecksumMismatch` and produces no
dispatch events. -/
theorem altered_checksum_never_dispatched_witness :
    decode (setByte (mkValueFrame OSCC_BRAKE_REPORT_CAN_ID 0 0) 7 0) =
      .error .checksumMismatch ∧
    (processFrame initSession
       (setByte (mkValueFrame OSCC_BRAKE_REPORT_CAN_ID 0 0) 7 0)).2 = [] := by
  have h := altered_checksum_never_dispatched
    (mkValueFrame OSCC_BRAKE_REPORT_CAN_ID 0 0)
    (.brakeReport (unscale false 0)) 0 (by rfl) (by decide)
  exact ⟨h.2.1, h.2.2 initSession⟩

/-- C4: a decoded fault report for module `m` forces `m` to `Faulted`
regardless of its prior state; in the event trace the fault transition
precedes every callback invocation, and the report is delivered to
every currently-registered fault subscriber exactly once, in
registration order. -/
theorem fault_report_dispatch (s : Session) (f : CanFrame) (m : Module)
    (h : decode f = .ok (.faultReport m)) :
    moduleStateOf (processFrame s f).1 m = .faulted ∧
    (processFrame s f).2 =
      Event.faultTransition m ::
        s.registry.faultSubs.map
          (fun cb => Event.invoke cb (.faultReport m)) := by
  unfold processFrame
  rw [h]
  exact ⟨by cases m <;> rfl, rfl⟩

/-- Witness for C4: a fault report frame naming the brake module, on a
session with fault subscribers `[3, 4]`, leaves brake `Faulted` and
invokes `3` then `4` after the transition. -/
theorem fault_report_dispatch_witness :
    moduleStateOf (processFrame
      { initSession with registry :=
          { initSession.registry with faultSubs := [3, 4] } }
      (mkValueFrame OSCC_FAULT_REPORT_CAN_ID 0 0)).1 .brake = .faulted ∧
    (processFrame
      { initSession with registry :=
          { initSession.registry with faultSubs := [3, 4] } }
      (mkValueFrame OSCC_FAULT_REPORT_CAN_ID 0 0)).2 =
      Event.faultTransition .brake ::
        List.map (fun cb => Event.invoke cb (.faultReport .brake)) [3, 4] :=
  fault_report_dispatch _ _ .brake (by rfl)

/-- C8: every subscribe operation appends its callback to that kind's
sequence (insertion order preserved, duplicates permitted), and for
every report kind one decoded frame of that kind invokes every
registered callback of the kind, in registration order, with the same
decoded report values. -/
theorem subscribe_appends_and_same_report :
    (∀ s cb, (oscc_subscribe_to_brake_reports s cb).2.registry.brakeSubs =
        s.registry.brakeSubs ++ [cb]) ∧
    (∀ s cb,
      (oscc_subscribe_to_throttle_reports s cb).2.registry.throttleSubs =
        s.registry.throttleSubs ++ [cb]) ∧
    (∀ s cb,
      (oscc_subscribe_to_steering_reports s cb).2.registry.steeringSubs =
        s.registry.steeringSubs ++ [cb]) ∧
    (∀ s cb, (oscc_subscribe_to_fault_reports s cb).2.registry.faultSubs =
        s.registry.faultSubs ++ [cb]) ∧
    (∀ s cb, (oscc_subscribe_to_obd_messages s cb).2.registry.obdSubs =
        s.registry.obdSubs ++ [cb]) ∧
    (∀ s f v, decode f = .ok (.brakeReport v) →
      (processFrame s f).2 =
        s.registry.brakeSubs.map
          (fun cb => Event.invoke cb (.brakeReport v))) ∧
    (∀ s f v, decode f = .ok (.throttleReport v) →
      (processFrame s f).2 =
        s.registry.throttleSubs.map
          (fun cb => Event.invoke cb (.throttleReport v))) ∧
    (∀ s f v, decode f = .ok (.steeringReport v) →
      (processFrame s f).2 =
        s.registry.steeringSubs.map
          (fun cb => Event.invoke cb (.steeringReport v))) ∧
    (∀ s f m, decode f = .ok (.faultReport m) →
      (processFrame s f).2 =
        Event.faultTransition m ::
          s.registry.faultSubs.map
            (fun cb => Event.invoke cb (.faultReport m))) := by
  refine ⟨fun s cb => rfl, fun s cb => rfl, fun s cb => rfl,
    fun s cb => rfl, fun s cb => rfl, ?_, ?_, ?_, ?_⟩ <;>
    intro s f v h <;> unfold processFrame <;> rw [h] <;> rfl

/-- Witness for C8: concrete frames of each report kind, each on a
session with registered callbacks of that kind; the twice-registered
throttle callback `7` is invoked twice with the same report value, and
brake, steering and fault subscribers each receive their kind's
decoded report in registration order. -/
theorem subscribe_appends_and_same_report_witness :
    (processFrame
      { initSession with registry :=
          { initSession.registry with brakeSubs := [5] } }
      (mkValueFrame OSCC_BRAKE_REPORT_CAN_ID 0 0)).2 =
      List.map (fun cb => Event.invoke cb (.brakeReport (unscale false 0)))
        [5] ∧
    (processFrame
      { initSession with registry :=
          { initSession.registry with throttleSubs := [7, 7] } }
      (mkValueFrame OSCC_THROTTLE_REPORT_CAN_ID 0 0)).2 =
      List.map (fun cb => Event.invoke cb (.throttleReport (unscale false 0)))
        [7, 7] ∧
    (processFrame
      { initSession with registry :=
          { initSession.registry with steeringSubs := [9] } }
      (mkValueFrame OSCC_STEERING_REPORT_CAN_ID 0 0)).2 =
      List.map (fun cb => Event.invoke cb (.steeringReport (unscale true 0)))
        [9] ∧
    (processFrame
      { initSession with registry :=
          { initSession.registry with faultSubs := [3, 4] } }
      (mkValueFrame OSCC_FAULT_REPORT_CAN_ID 0 0)).2 =
      Event.faultTransition .brake ::
        List.map (fun cb => Event.invoke cb (.faultReport .brake)) [3, 4] :=
  ⟨subscribe_appends_and_same_report.2.2.2.2.2.1 _ _
     (unscale false 0) (by rfl),
   subscribe_appends_and_same_report.2.2.2.2.2.2.1 _ _
     (unscale false 0) (by rfl),
   subscribe_appends_and_same_report.2.2.2.2.2.2.2.1 _ _
     (unscale true 0) (by rfl),
   subscribe_appends_and_same_report.2.2.2.2.2.2.2.2 _ _
     .brake (by rfl)⟩

/-- C5: `disable` always succeeds and yields `Disabled` from every
state; among the per-module state machine events only `evDisable`
leaves `Faulted`, and it leaves it to `Disabled`; the collective
`oscc_disable` succeeds and disables every module. -/
theorem disable_always_safe :
    (∀ st, disableModule st = .ok .disabled) ∧
    (∀ e, e = ModuleEvent.evDisable ∨ moduleStep .faulted e = .faulted) ∧
    moduleStep .faulted .evDisable = .disabled ∧
    (∀ s, (oscc_disable s).1 = .OSCC_OK ∧
      ∀ m, moduleStateOf (oscc_disable s).2 m = .disabled) := by
  refine ⟨fun st => rfl, ?_, rfl, ?_⟩
  · intro e
    cases e
    · right; rfl
    · left; rfl
    · right; rfl
  · intro s
    exact ⟨rfl, fun m => by cases m <;> rfl⟩

/-- C6: `enable` transitions `Disabled → Enabled`, is a successful
no-op on `Enabled`, fails with `AlreadyFaulted` on `Faulted`, and the
failing enable leaves a faulted module's state unchanged. -/
theorem enable_transition_table :
    enableModule .disabled = .ok .enabled ∧
    enableModule .enabled = .ok .enabled ∧
    enableModule .faulted = .error .alreadyFaulted ∧
    moduleStep .faulted .evEnable = .faulted :=
  ⟨rfl, rfl, rfl, rfl⟩

/-- C7: publishing a value outside the module's declared domain returns
`ValidationError` and leaves the session untouched — no transport send
happens and the value is never clamped into the domain. -/
theorem publish_out_of_domain (s : Session) (k : CmdKind) (v : ℚ)
    (h : ¬ inDomain k v) :
    (publish s k v).1 = .error .validationError ∧
    (publish s k v).2 = s := by
  simp [publish, h]

/-- Witness for C7: `publish_brake_position(3/2)` on a fresh session
returns `ValidationError` without touching the transport. -/
theorem publish_out_of_domain_witness :
    (publish initSession .brakePosition (3/2)).1 =
      .error .validationError ∧
    (publish initSession .brakePosition (3/2)).2 = initSession :=
  publish_out_of_domain initSession .brakePosition (3/2)
    (by norm_num [inDomain, loBound, cmdSigned])

/-- C9: a close always succeeds, stops the receive loop, and resets
every module's state to `Disabled`. -/
theorem close_resets_module_states (s : Session) (channel : Nat) :
    (oscc_close s channel).1 = .OSCC_OK ∧
    (oscc_close s channel).2.isOpen = false ∧
    ∀ m, moduleStateOf (oscc_close s channel).2 m = .disabled := by
  refine ⟨rfl, rfl, fun m => ?_⟩
  cases m <;> rfl

/-- C10: every public API operation returns a value of the three-valued
`oscc_error_t`, and that value is always `OSCC_OK` or `OSCC_ERROR` —
`OSCC_WARNING` is never returned. -/
theorem api_ok_or_error :
    (∀ s c, (oscc_open s c).1 = oscc_error_t.OSCC_OK ∨
      (oscc_open s c).1 = .OSCC_ERROR) ∧
    (∀ s c, (oscc_close s c).1 = oscc_error_t.OSCC_OK ∨
      (oscc_close s c).1 = .OSCC_ERROR) ∧
    (∀ s, (oscc_enable s).1 = oscc_error_t.OSCC_OK ∨
      (oscc_enable s).1 = .OSCC_ERROR) ∧
    (∀ s, (oscc_disable s).1 = oscc_error_t.OSCC_OK ∨
      (oscc_disable s).1 = .OSCC_ERROR) ∧
    (∀ s v, (oscc_publish_brake_position s v).1 = oscc_error_t.OSCC_OK ∨
      (oscc_publish_brake_position s v).1 = .OSCC_ERROR) ∧
    (∀ s v, (oscc_publish_brake_pressure s v).1 = oscc_error_t.OSCC_OK ∨
      (oscc_publish_brake_pressure s v).1 = .OSCC_ERROR) ∧
    (∀ s v, (oscc_publish_throttle_position s v).1 = oscc_error_t.OSCC_OK ∨
      (oscc_publish_throttle_position s v).1 = .OSCC_ERROR) ∧
    (∀ s v, (oscc_publish_steering_angle s v).1 = oscc_error_t.OSCC_OK ∨
      (oscc_publish_steering_angle s v).1 = .OSCC_ERROR) ∧
    (∀ s v, (oscc_publish_steering_torque s v).1 = oscc_error_t.OSCC_OK ∨
      (oscc_publish_steering_torque s v).1 = .OSCC_ERROR) ∧
    (∀ s cb, (oscc_subscribe_to_brake_reports s cb).1 = oscc_error_t.OSCC_OK ∨
      (oscc_subscribe_to_brake_reports s cb).1 = .OSCC_ERROR) ∧
    (∀ s cb, (oscc_subscribe_to_throttle_reports s cb).1 = oscc_error_t.OSCC_OK ∨
      (oscc_subscribe_to_throttle_reports s cb).1 = .OSCC_ERROR) ∧
    (∀ s cb, (oscc_subscribe_to_steering_reports s cb).1 = oscc_error_t.OSCC_OK ∨
      (oscc_subscribe_to_steering_reports s cb).1 = .OSCC_ERROR) ∧
    (∀ s cb, (oscc_subscribe_to_fault_reports s cb).1 = oscc_error_t.OSCC_OK ∨
      (oscc_subscribe_to_fault_reports s cb).1 = .OSCC_ERROR) ∧
    (∀ s cb, (oscc_subscribe_to_obd_messages s cb).1 = oscc_error_t.OSCC_OK ∨
      (oscc_subscribe_to_obd_messages s cb).1 = .OSCC_ERROR) := by
  refine ⟨?_, ?_, ?_, ?_, ?_, ?_, ?_, ?_, ?_, ?_, ?_, ?_, ?_, ?_⟩
  · intro s c
    by_cases h : s.isOpen <;> simp [oscc_open, h]
  · intro s c; left; rfl
  · intro s
    by_cases h : s.brakeState = .faulted ∨ s.throttleState = .faulted ∨
        s.steeringState = .faulted <;> simp [oscc_enable, h]
  · intro s; left; rfl
  · intro s v
    simpa [oscc_publish_brake_position] using
      toErrorCode_ok_or_error (publish s .brakePosition v).1
  · intro s v
    simpa [oscc_publish_brake_pressure] using
      toErrorCode_ok_or_error (publish s .brakePressure v).1
  · intro s v
    simpa [oscc_publish_throttle_position] using
      toErrorCode_ok_or_error (publish s .throttlePosition v).1
  · intro s v
    simpa [oscc_publish_steering_angle] using
      toErrorCode_ok_or_error (publish s .steeringAngle v).1
  · intro s v
    simpa [oscc_publish_steering_torque] using
      toErrorCode_ok_or_error (publish s .steeringTorque v).1
  · intro s cb; left; rfl
  · intro s cb; left; rfl
  · intro s cb; left; rfl
  · intro s cb; left; rfl
  · intro s cb; left; rfl

end Oscc
